import Mathlib

/-!
Verification of the chapter 5 TCP command server and client
(chapter_05_server.py, chapter_05_client.py).

The server side is embedded as pure functions:
the command dispatcher process_message (both as a plain function taking
the counter value and the pseudo-random draw as arguments, and as a
state-passing variant process_message_st that threads the shared state
the Python code reads), the per-connection handler handle_client as a
function of a finite trace of receive events, and the lock discipline of
the shared connection counter as a trace of counter/lock operations.
The client side is embedded as the argument-validation step of main and
the interactive_mode loop over a finite list of operator input lines.
-/

namespace MageTower

/-- Embedding of the Python str.lower() call: lower-case every character. -/
def pyLower (s : String) : String := ⟨s.data.map Char.toLower⟩

/-- The whitespace characters str.strip() removes by default. -/
def isPySpace (c : Char) : Bool :=
  c == ' ' || c == '\t' || c == '\n' || c == '\r' || c == '\x0b' || c == '\x0c'

/-- Embedding of the Python str.strip() call: drop whitespace from both
ends. -/
def pyStrip (s : String) : String :=
  ⟨((s.data.dropWhile isPySpace).reverse.dropWhile isPySpace).reverse⟩

/-- The five flavor strings of the spell branch of process_message
(the spells list, chapter_05_server.py lines 125-131); trailing
characters are the file's literal bytes. -/
def spells : List String :=
  ["Lightning Bolt strikes! ‚ö°",
   "Fireball erupts! üî•",
   "Ice Shard freezes the enemy! ‚ùÑÔ∏è",
   "Dark Magic overwhelms! üåë",
   "Healing Light restores health! ‚ú®"]

/-- Response of the help branch (server lines 112-118): the triple-quoted
literal, which begins and ends with a newline. -/
def helpResponse : String :=
  "\nAvailable commands:\n- HELP: Show this help message\n- STATUS: Show server status\n- SPELL: Cast a random spell\n- QUIT: Disconnect from server\n"

/-- Response of the status branch (server line 121), formatted from the
current value of the shared connection counter. -/
def statusResponse (active_connections : Int) : String :=
  ("Server Status: Running | Active connections: " ++ toString active_connections) ++ "\n"

/-- Response of the spell branch (server line 132): one element of spells
selected by the pseudo-random draw, which we pass in explicitly. -/
def spellResponse (rand : Nat) : String :=
  ("The Mage casts: " ++ spells.getD (rand % spells.length) "") ++ "\n"

/-- Response of the quit branch (server line 135). -/
def quitResponse : String :=
  "Farewell, adventurer! May your journey continue...\n"

/-- Response of the echo branch (server line 139): fixed tag, the original
(not lower-cased) message, and a newline. -/
def echoResponse (message : String) : String :=
  ("[Echo from Mage's Tower] " ++ message) ++ "\n"

/-- The command dispatcher process_message (server lines 90-141).
The mutable inputs the Python body reads are passed explicitly: the
shared counter active_connections, and the pseudo-random draw rand used
by random.choice in the spell branch. -/
def process_message (message : String) (active_connections : Int) (rand : Nat) : String :=
  let message_lower := pyLower message
  if message_lower = "help" then helpResponse
  else if message_lower = "status" then statusResponse active_connections
  else if message_lower = "spell" then spellResponse rand
  else if message_lower = "quit" then quitResponse
  else echoResponse message

/-- The five dispatch branches of process_message. -/
inductive Branch
  | help
  | status
  | spell
  | quit
  | echo
deriving DecidableEq

/-- Which branch of the if/elif chain of process_message a message
selects (same conditions, in source order). -/
def dispatchBranch (message : String) : Branch :=
  let message_lower := pyLower message
  if message_lower = "help" then .help
  else if message_lower = "status" then .status
  else if message_lower = "spell" then .spell
  else if message_lower = "quit" then .quit
  else .echo

/-- The mutable process-wide state process_message can observe: the shared
connection counter, and the position in the global pseudo-random stream
that random.choice reads and advances. -/
structure DispatchState where
  active_connections : Int
  randIndex : Nat
deriving DecidableEq

/-- State-passing form of process_message: rands is the global
pseudo-random stream; only the spell branch consumes a draw (and so
advances randIndex), and no branch writes active_connections. -/
def process_message_st (rands : Nat → Nat) (message : String) (st : DispatchState) :
    String × DispatchState :=
  let message_lower := pyLower message
  if message_lower = "help" then (helpResponse, st)
  else if message_lower = "status" then (statusResponse st.active_connections, st)
  else if message_lower = "spell" then
    (spellResponse (rands st.randIndex), { st with randIndex := st.randIndex + 1 })
  else if message_lower = "quit" then (quitResponse, st)
  else (echoResponse message, st)

/-- One outcome of the blocking recv in the handle_client loop (server
lines 53-72): a decoded chunk of data, a zero-byte read (graceful close),
a connection reset, or any other error (e.g. a decode failure). -/
inductive RecvEvent
  | data (msg : String)
  | closed
  | reset
  | err
deriving DecidableEq

/-- Whether a receive event makes the handle_client loop stop. -/
def isTerminal : RecvEvent → Bool
  | .data _ => false
  | _ => true

/-- How the handle_client read loop ended: break on zero-byte read,
ConnectionResetError, another exception, or still blocked in recv
(the finite trace ran out without a terminating event). -/
inductive LoopExit
  | graceful
  | reset
  | errored
  | blocked
deriving DecidableEq

/-- Exit reason of the handle_client read loop on a finite trace of
receive events: data events are processed and the loop continues;
the first terminal event stops it. -/
def loopExit : List RecvEvent → LoopExit
  | [] => .blocked
  | .closed :: _ => .graceful
  | .reset :: _ => .reset
  | .err :: _ => .errored
  | .data _ :: rest => loopExit rest

/-- Responses the handle_client loop sends back on a trace: each data
chunk is stripped (server line 64) and dispatched through
process_message with the handler's observed counter value n; k indexes
the pseudo-random stream rands. -/
def loopResponses (n : Int) (rands : Nat → Nat) : List RecvEvent → Nat → List String
  | [], _ => []
  | .closed :: _, _ => []
  | .reset :: _, _ => []
  | .err :: _, _ => []
  | .data msg :: rest, k =>
      process_message (pyStrip msg) n (rands k) :: loopResponses n rands rest (k + 1)

/-- Observable outcome of one handle_client run: final counter value,
how many times the client socket was closed, the responses sent, and
whether the handler actually completed (reached the finally block). -/
structure HandlerOutcome where
  active_connections : Int
  closeCount : Nat
  responses : List String
  finished : Bool
deriving DecidableEq

/-- The connection handler handle_client (server lines 22-87) on a finite
trace: increment the shared counter under the lock, send the welcome
(welcomeFails models an exception while sending it, caught by the same
try/except), run the read loop, and in the finally block close the
socket once and decrement the counter — except when the trace leaves the
handler still blocked in recv, where the finally block has not run yet. -/
def handle_client (welcomeFails : Bool) (events : List RecvEvent) (rands : Nat → Nat)
    (counter : Int) : HandlerOutcome :=
  let n := counter + 1
  if welcomeFails then
    ⟨n - 1, 1, [], true⟩
  else
    match loopExit events with
    | .blocked => ⟨n, 0, loopResponses n rands events 0, false⟩
    | _ => ⟨n - 1, 1, loopResponses n rands events 0, true⟩

/-- Python truthiness of the optional -m argument: None and the empty
string are both falsy in the check at client line 224. -/
def pyTruthy : Option String → Bool
  | none => false
  | some s => !(s == "")

/-- What the client main does after parsing arguments. -/
inductive ClientAction
  | usageError
  | runInteractive
  | runSingle (message : String)
deriving DecidableEq

/-- Exit code of the client usage error (client line 227). -/
def usageExitCode : Nat := 1

/-- Argument validation and mode selection of the client main (client
lines 224-252, connection handling elided): reject when neither flag is
truthy, otherwise interactive mode takes priority in the if/else at
lines 247-252. -/
def client_main (message : Option String) (interactive : Bool) : ClientAction :=
  if !pyTruthy message && !interactive then .usageError
  else if interactive then .runInteractive
  else .runSingle (message.getD "")

/-- Why the client interactive loop stopped: the server closed the
connection (recv returned no data), the operator typed quit, or operator
input ended (EOF / interrupt) before either. -/
inductive LoopEnd
  | serverClosed
  | userQuit
  | inputEnded
deriving DecidableEq

/-- Observable outcome of interactive_mode: messages actually sent to
the server, responses printed, and why the loop ended. -/
structure InteractiveResult where
  sent : List String
  printed : List String
  ends : LoopEnd
deriving DecidableEq

/-- The client interactive loop (client lines 136-154) on a finite list
of operator input lines: strip each line, skip it when empty, otherwise
send it; resp k is the server's reply to the k-th sent message (none
models an empty read: connection lost). On a reply the response is
printed, and the loop breaks when the sent input lower-cases to quit. -/
def interactive_mode (resp : Nat → Option String) : List String → Nat → InteractiveResult
  | [], _ => ⟨[], [], .inputEnded⟩
  | line :: rest, k =>
    let user_input := pyStrip line
    if user_input = "" then interactive_mode resp rest k
    else
      match resp k with
      | none => ⟨[user_input], [], .serverClosed⟩
      | some r =>
        if pyLower user_input = "quit" then ⟨[user_input], [r], .userQuit⟩
        else
          let res := interactive_mode resp rest (k + 1)
          ⟨user_input :: res.sent, r :: res.printed, res.ends⟩

/-- A primitive operation on the shared connection counter or its lock,
as the server code performs them. -/
inductive CtrOp
  | acquire
  | release
  | readCtr
  | writeCtr
deriving DecidableEq

/-- Counter/lock operations on entry to handle_client (server lines
39-41): inside the with-block, the increment (a write) and the read into
current_connections. -/
def handleClientEntryOps : List CtrOp :=
  [.acquire, .writeCtr, .readCtr, .release]

/-- Counter/lock operations in the finally block of handle_client
(server lines 83-87): the decrement inside the with-block, then —
after the lock is released — the read for the closing log line. -/
def handleClientExitOps : List CtrOp :=
  [.acquire, .writeCtr, .release, .readCtr]

/-- Counter/lock operations process_message performs: only the status
branch touches the counter, and it reads it with no lock around it
(server line 121). -/
def processMessageOps (message : String) : List CtrOp :=
  if pyLower message = "status" then [.readCtr] else []

/-- Counter/lock operations of the handle_client read loop on a trace:
one dispatcher access sequence per data event, stopping at the first
terminal event. -/
def loopOps : List RecvEvent → List CtrOp
  | [] => []
  | .data msg :: rest => processMessageOps (pyStrip msg) ++ loopOps rest
  | .closed :: _ => []
  | .reset :: _ => []
  | .err :: _ => []

/-- Full counter/lock operation trace of one handle_client run: entry
ops, the loop's dispatcher ops, and — when the loop actually exited —
the finally block's ops. -/
def handlerOps (events : List RecvEvent) : List CtrOp :=
  handleClientEntryOps ++ loopOps events ++
    (if loopExit events = LoopExit.blocked then [] else handleClientExitOps)

/-- Lock nesting depth after running a list of operations, starting from
depth d. -/
def lockDepth : List CtrOp → Nat → Nat
  | [], d => d
  | .acquire :: rest, d => lockDepth rest (d + 1)
  | .release :: rest, d => lockDepth rest (d - 1)
  | .readCtr :: rest, d => lockDepth rest d
  | .writeCtr :: rest, d => lockDepth rest d

/-- Number of counter accesses (reads or writes) performed while the lock
is not held, starting from depth d. -/
def unlockedAccesses : List CtrOp → Nat → Nat
  | [], _ => 0
  | .acquire :: rest, d => unlockedAccesses rest (d + 1)
  | .release :: rest, d => unlockedAccesses rest (d - 1)
  | .readCtr :: rest, d => (if d = 0 then 1 else 0) + unlockedAccesses rest d
  | .writeCtr :: rest, d => (if d = 0 then 1 else 0) + unlockedAccesses rest d

/-- Number of counter writes performed while the lock is not held,
starting from depth d. -/
def unlockedWrites : List CtrOp → Nat → Nat
  | [], _ => 0
  | .acquire :: rest, d => unlockedWrites rest (d + 1)
  | .release :: rest, d => unlockedWrites rest (d - 1)
  | .readCtr :: rest, d => unlockedWrites rest d
  | .writeCtr :: rest, d => (if d = 0 then 1 else 0) + unlockedWrites rest d

/-- Fixed pseudo-random stream used in concrete instances. -/
def demoRands : Nat → Nat := fun k => k

/-- Fixed server-reply stream used in concrete instances of the client
interactive loop. -/
def demoResp : Nat → Option String := fun _ => some "[Echo from Mage's Tower] hi\n"

/-! Unfolding helpers: each definition written with a local let/match is
restated as its if-chain, definitionally. -/

theorem process_message_eq_ite (message : String) (n : Int) (r : Nat) :
    process_message message n r =
      (if pyLower message = "help" then helpResponse
       else if pyLower message = "status" then statusResponse n
       else if pyLower message = "spell" then spellResponse r
       else if pyLower message = "quit" then quitResponse
       else echoResponse message) := rfl

theorem dispatchBranch_eq_ite (message : String) :
    dispatchBranch message =
      (if pyLower message = "help" then Branch.help
       else if pyLower message = "status" then Branch.status
       else if pyLower message = "spell" then Branch.spell
       else if pyLower message = "quit" then Branch.quit
       else Branch.echo) := rfl

theorem process_message_st_eq_ite (rands : Nat → Nat) (message : String) (st : DispatchState) :
    process_message_st rands message st =
      (if pyLower message = "help" then (helpResponse, st)
       else if pyLower message = "status" then (statusResponse st.active_connections, st)
       else if pyLower message = "spell" then
         (spellResponse (rands st.randIndex), { st with randIndex := st.randIndex + 1 })
       else if pyLower message = "quit" then (quitResponse, st)
       else (echoResponse message, st)) := rfl

theorem interactive_mode_nil (resp : Nat → Option String) (k : Nat) :
    interactive_mode resp [] k = ⟨[], [], LoopEnd.inputEnded⟩ := rfl

theorem interactive_mode_cons (resp : Nat → Option String) (line : String)
    (rest : List String) (k : Nat) :
    interactive_mode resp (line :: rest) k =
      (if pyStrip line = "" then interactive_mode resp rest k
       else
         match resp k with
         | none => ⟨[pyStrip line], [], LoopEnd.serverClosed⟩
         | some r =>
           if pyLower (pyStrip line) = "quit" then ⟨[pyStrip line], [r], LoopEnd.userQuit⟩
           else
             ⟨pyStrip line :: (interactive_mode resp rest (k + 1)).sent,
              r :: (interactive_mode resp rest (k + 1)).printed,
              (interactive_mode resp rest (k + 1)).ends⟩) := rfl

/-- A string with a newline appended is never empty. -/
theorem append_newline_ne (t : String) : t ++ "\n" ≠ "" := by
  cases t with
  | mk l =>
    intro h
    have hd : l ++ ['\n'] = ([] : List Char) := congrArg String.data h
    simp at hd

/-- C1: Echo round-trip — for every command string whose lower-casing is
none of the four recognized keywords, including the empty string,
process_message returns the fixed echo tag followed by the string
unchanged and a trailing newline, so the response contains the string as
a substring. -/
theorem echo_round_trip (s : String) (n : Int) (r : Nat)
    (h1 : pyLower s ≠ "help") (h2 : pyLower s ≠ "status")
    (h3 : pyLower s ≠ "spell") (h4 : pyLower s ≠ "quit") :
    process_message s n r = ("[Echo from Mage's Tower] " ++ s) ++ "\n" := by
  rw [process_message_eq_ite, if_neg h1, if_neg h2, if_neg h3, if_neg h4]
  rfl

/-- Concrete instance of echo_round_trip at the spec's scenario E input. -/
theorem echo_round_trip_witness :
    (pyLower "dragon" ≠ "help" ∧ pyLower "dragon" ≠ "status" ∧
      pyLower "dragon" ≠ "spell" ∧ pyLower "dragon" ≠ "quit") ∧
      process_message "dragon" 0 0 = ("[Echo from Mage's Tower] " ++ "dragon") ++ "\n" :=
  ⟨⟨by decide, by decide, by decide, by decide⟩,
    echo_round_trip "dragon" 0 0 (by decide) (by decide) (by decide) (by decide)⟩

/-- C2: Case-insensitive dispatch — two messages with the same
lower-casing select the same branch of process_message, and on every
branch other than echo (help, status, spell, quit) they produce the
identical response given the same counter value and the same
pseudo-random draw. -/
theorem case_insensitive_dispatch (s t : String) (n : Int) (r : Nat)
    (h : pyLower s = pyLower t) :
    dispatchBranch s = dispatchBranch t ∧
      (dispatchBranch s ≠ Branch.echo → process_message s n r = process_message t n r) := by
  constructor
  · rw [dispatchBranch_eq_ite, dispatchBranch_eq_ite, h]
  · intro hne
    rw [dispatchBranch_eq_ite, h] at hne
    rw [process_message_eq_ite, process_message_eq_ite, h]
    by_cases h1 : pyLower t = "help"
    · rw [if_pos h1, if_pos h1]
    rw [if_neg h1, if_neg h1]
    by_cases h2 : pyLower t = "status"
    · rw [if_pos h2, if_pos h2]
    rw [if_neg h2, if_neg h2]
    by_cases h3 : pyLower t = "spell"
    · rw [if_pos h3, if_pos h3]
    rw [if_neg h3, if_neg h3]
    by_cases h4 : pyLower t = "quit"
    · rw [if_pos h4, if_pos h4]
    · rw [if_neg h1, if_neg h2, if_neg h3, if_neg h4] at hne
      exact absurd rfl hne

/-- Concrete instance of case_insensitive_dispatch: HELP versus help. -/
theorem case_insensitive_dispatch_witness :
    pyLower "HELP" = pyLower "help" ∧ dispatchBranch "HELP" = dispatchBranch "help" ∧
      process_message "HELP" 2 0 = process_message "help" 2 0 :=
  ⟨by decide, (case_insensitive_dispatch "HELP" "help" 2 0 (by decide)).1,
    (case_insensitive_dispatch "HELP" "help" 2 0 (by decide)).2 (by decide)⟩

/-- C10: Dispatcher totality and response framing — process_message is a
total function and on every input, every counter value and every
pseudo-random draw its response is some string followed by a newline, in
particular non-empty. -/
theorem dispatch_total_newline (message : String) (n : Int) (r : Nat) :
    (∃ t, process_message message n r = t ++ "\n") ∧ process_message message n r ≠ "" := by
  have he : ∃ t, process_message message n r = t ++ "\n" := by
    rw [process_message_eq_ite]
    by_cases h1 : pyLower message = "help"
    · rw [if_pos h1]
      exact ⟨"\nAvailable commands:\n- HELP: Show this help message\n- STATUS: Show server status\n- SPELL: Cast a random spell\n- QUIT: Disconnect from server", by decide⟩
    rw [if_neg h1]
    by_cases h2 : pyLower message = "status"
    · rw [if_pos h2]
      exact ⟨"Server Status: Running | Active connections: " ++ toString n, rfl⟩
    rw [if_neg h2]
    by_cases h3 : pyLower message = "spell"
    · rw [if_pos h3]
      exact ⟨"The Mage casts: " ++ spells.getD (r % spells.length) "", rfl⟩
    rw [if_neg h3]
    by_cases h4 : pyLower message = "quit"
    · rw [if_pos h4]
      exact ⟨"Farewell, adventurer! May your journey continue...", by decide⟩
    · rw [if_neg h4]
      exact ⟨"[Echo from Mage's Tower] " ++ message, rfl⟩
  refine ⟨he, ?_⟩
  obtain ⟨t, ht⟩ := he
  rw [ht]
  exact append_newline_ne t

/-- C3: Guaranteed cleanup — on every exit path of handle_client
(graceful zero-byte read, connection reset, decode failure or other
error in the loop, or a failure while sending the welcome), the client
socket is closed exactly once and the counter is decremented back to its
pre-connection value, and the handler has finished. -/
theorem handler_cleanup (welcomeFails : Bool) (events : List RecvEvent)
    (rands : Nat → Nat) (c : Int)
    (h : welcomeFails = true ∨ loopExit events ≠ LoopExit.blocked) :
    (handle_client welcomeFails events rands c).active_connections = c ∧
      (handle_client welcomeFails events rands c).closeCount = 1 ∧
      (handle_client welcomeFails events rands c).finished = true := by
  rcases h with h | h
  · subst h
    refine ⟨?_, rfl, rfl⟩
    show c + 1 - 1 = c
    omega
  · cases welcomeFails with
    | true =>
      refine ⟨?_, rfl, rfl⟩
      show c + 1 - 1 = c
      omega
    | false =>
      cases hx : loopExit events with
      | blocked => exact absurd hx h
      | graceful =>
        refine ⟨?_, ?_, ?_⟩ <;> simp [handle_client, hx]
      | reset =>
        refine ⟨?_, ?_, ?_⟩ <;> simp [handle_client, hx]
      | errored =>
        refine ⟨?_, ?_, ?_⟩ <;> simp [handle_client, hx]

/-- Concrete instance of handler_cleanup: one help command, then a
graceful disconnect, starting from three active connections. -/
theorem handler_cleanup_witness :
    (false = true ∨ loopExit [RecvEvent.data "help", RecvEvent.closed] ≠ LoopExit.blocked) ∧
      (handle_client false [RecvEvent.data "help", RecvEvent.closed] demoRands 3).active_connections = 3 ∧
      (handle_client false [RecvEvent.data "help", RecvEvent.closed] demoRands 3).closeCount = 1 ∧
      (handle_client false [RecvEvent.data "help", RecvEvent.closed] demoRands 3).finished = true :=
  ⟨by decide, handler_cleanup false [RecvEvent.data "help", RecvEvent.closed] demoRands 3 (by decide)⟩

/-- C4 counterexample: invoking the client with both -m and -i is not
rejected — client_main runs interactive mode instead of reporting an
invocation error. -/
theorem both_flags_not_rejected_cex :
    client_main (some "hello") true = ClientAction.runInteractive ∧
      ClientAction.runInteractive ≠ ClientAction.usageError := by decide

/-- C4 amended: invoking the client with neither -m nor -i (or with an
empty -m message, which Python treats as falsy) is a usage error with
exit code 1; with both flags the invocation is accepted and interactive
mode takes priority, the single message being ignored. -/
theorem client_mode_validation (m : String) :
    client_main none false = ClientAction.usageError ∧
      client_main (some "") false = ClientAction.usageError ∧
      usageExitCode = 1 ∧
      client_main (some m) true = ClientAction.runInteractive ∧
      client_main none true = ClientAction.runInteractive := by
  refine ⟨by decide, by decide, rfl, ?_, by decide⟩
  simp [client_main]

/-- C5 counterexample: two successive invocations of the dispatcher on
the input spell from the same counter value (the first invocation leaves
the counter at 0) return different response strings, because the spell
branch reads and advances the global pseudo-random stream. -/
theorem spell_nondeterminism_cex :
    (process_message_st demoRands "spell" (DispatchState.mk 0 0)).1 ≠
        (process_message_st demoRands "spell"
          (process_message_st demoRands "spell" (DispatchState.mk 0 0)).2).1 ∧
      (process_message_st demoRands "spell" (DispatchState.mk 0 0)).2.active_connections =
        (DispatchState.mk 0 0).active_connections := by decide

/-- C5 amended: for every input whose lower-casing is not spell, the
dispatcher response depends only on the input and the counter value —
two invocations with equal counters return the same string regardless of
the pseudo-random stream and its position. -/
theorem dispatcher_deterministic_off_spell (message : String) (st st' : DispatchState)
    (rands rands' : Nat → Nat) (hs : pyLower message ≠ "spell")
    (hc : st.active_connections = st'.active_connections) :
    (process_message_st rands message st).1 = (process_message_st rands' message st').1 := by
  rw [process_message_st_eq_ite, process_message_st_eq_ite]
  by_cases h1 : pyLower message = "help"
  · rw [if_pos h1, if_pos h1]
  rw [if_neg h1, if_neg h1]
  by_cases h2 : pyLower message = "status"
  · rw [if_pos h2, if_pos h2]
    show statusResponse st.active_connections = statusResponse st'.active_connections
    rw [hc]
  rw [if_neg h2, if_neg h2, if_neg hs, if_neg hs]
  by_cases h4 : pyLower message = "quit"
  · rw [if_pos h4, if_pos h4]
  · rw [if_neg h4, if_neg h4]

/-- Concrete instance of dispatcher_deterministic_off_spell: status with
equal counters but different pseudo-random streams and positions. -/
theorem dispatcher_deterministic_off_spell_witness :
    (pyLower "status" ≠ "spell" ∧
      (DispatchState.mk 4 0).active_connections = (DispatchState.mk 4 7).active_connections) ∧
      (process_message_st demoRands "status" (DispatchState.mk 4 0)).1 =
        (process_message_st (fun _ => 3) "status" (DispatchState.mk 4 7)).1 :=
  ⟨⟨by decide, by decide⟩,
    dispatcher_deterministic_off_spell "status" (DispatchState.mk 4 0) (DispatchState.mk 4 7)
      demoRands (fun _ => 3) (by decide) (by decide)⟩

/-- C6: The quit command does not terminate the connection server-side —
the dispatcher returns the farewell line, the read loop processes a data
event carrying it like any other (its exit reason is that of the rest of
the trace, so it exits only on a zero-byte read, reset, or error), and
the loop still sends the response for it. -/
theorem quit_keeps_connection (s : String) (n : Int) (r : Nat) (rest : List RecvEvent)
    (rands : Nat → Nat) (k : Nat) (h : pyLower s = "quit") :
    process_message s n r = "Farewell, adventurer! May your journey continue...\n" ∧
      loopExit (RecvEvent.data s :: rest) = loopExit rest ∧
      loopResponses n rands (RecvEvent.data s :: rest) k =
        process_message (pyStrip s) n (rands k) :: loopResponses n rands rest (k + 1) := by
  refine ⟨?_, rfl, rfl⟩
  have h1 : pyLower s ≠ "help" := by rw [h]; decide
  have h2 : pyLower s ≠ "status" := by rw [h]; decide
  have h3 : pyLower s ≠ "spell" := by rw [h]; decide
  rw [process_message_eq_ite, if_neg h1, if_neg h2, if_neg h3, if_pos h]
  rfl

/-- Concrete instance of quit_keeps_connection at QUIT followed by a
graceful close. -/
theorem quit_keeps_connection_witness :
    pyLower "QUIT" = "quit" ∧
      process_message "QUIT" 5 0 = "Farewell, adventurer! May your journey continue...\n" ∧
      loopExit [RecvEvent.data "QUIT", RecvEvent.closed] = loopExit [RecvEvent.closed] ∧
      loopResponses 5 demoRands [RecvEvent.data "QUIT", RecvEvent.closed] 0 =
        process_message (pyStrip "QUIT") 5 (demoRands 0) ::
          loopResponses 5 demoRands [RecvEvent.closed] 1 :=
  ⟨by decide, quit_keeps_connection "QUIT" 5 0 [RecvEvent.closed] demoRands 0 (by decide)⟩

/-- C8: Dispatcher frame property — evaluating the dispatcher never
changes the connection counter, on any branch; moreover its response
agrees with the plain process_message applied to the counter it read and
the pseudo-random draw at the current stream position. -/
theorem dispatch_frame_counter (rands : Nat → Nat) (message : String) (st : DispatchState) :
    (process_message_st rands message st).2.active_connections = st.active_connections ∧
      (process_message_st rands message st).1 =
        process_message message st.active_connections (rands st.randIndex) := by
  rw [process_message_st_eq_ite, process_message_eq_ite]
  by_cases h1 : pyLower message = "help"
  · rw [if_pos h1, if_pos h1]; exact ⟨rfl, rfl⟩
  rw [if_neg h1, if_neg h1]
  by_cases h2 : pyLower message = "status"
  · rw [if_pos h2, if_pos h2]; exact ⟨rfl, rfl⟩
  rw [if_neg h2, if_neg h2]
  by_cases h3 : pyLower message = "spell"
  · rw [if_pos h3, if_pos h3]; exact ⟨rfl, rfl⟩
  rw [if_neg h3, if_neg h3]
  by_cases h4 : pyLower message = "quit"
  · rw [if_pos h4, if_pos h4]; exact ⟨rfl, rfl⟩
  · rw [if_neg h4, if_neg h4]; exact ⟨rfl, rfl⟩

/-- Step equation of interactive_mode: a line that is blank after
stripping is skipped. -/
theorem im_step_blank (resp : Nat → Option String) (line : String) (rest : List String)
    (k : Nat) (hb : pyStrip line = "") :
    interactive_mode resp (line :: rest) k = interactive_mode resp rest k := by
  rw [interactive_mode_cons, if_pos hb]

/-- Step equation of interactive_mode: a non-blank line is sent, and an
empty read in reply ends the loop. -/
theorem im_step_closed (resp : Nat → Option String) (line : String) (rest : List String)
    (k : Nat) (hb : pyStrip line ≠ "") (hr : resp k = none) :
    interactive_mode resp (line :: rest) k =
      ⟨[pyStrip line], [], LoopEnd.serverClosed⟩ := by
  rw [interactive_mode_cons, if_neg hb, hr]

/-- Step equation of interactive_mode: a non-blank line lower-casing to
quit is sent, its reply printed, and the loop ends. -/
theorem im_step_quit (resp : Nat → Option String) (line : String) (rest : List String)
    (k : Nat) (r : String) (hb : pyStrip line ≠ "") (hr : resp k = some r)
    (hq : pyLower (pyStrip line) = "quit") :
    interactive_mode resp (line :: rest) k =
      ⟨[pyStrip line], [r], LoopEnd.userQuit⟩ := by
  rw [interactive_mode_cons, if_neg hb, hr]
  show (if pyLower (pyStrip line) = "quit"
        then (⟨[pyStrip line], [r], LoopEnd.userQuit⟩ : InteractiveResult)
        else ⟨pyStrip line :: (interactive_mode resp rest (k + 1)).sent,
              r :: (interactive_mode resp rest (k + 1)).printed,
              (interactive_mode resp rest (k + 1)).ends⟩) =
      ⟨[pyStrip line], [r], LoopEnd.userQuit⟩
  rw [if_pos hq]

/-- Step equation of interactive_mode: any other non-blank line is sent,
its reply printed, and the loop continues on the remaining input. -/
theorem im_step_cont (resp : Nat → Option String) (line : String) (rest : List String)
    (k : Nat) (r : String) (hb : pyStrip line ≠ "") (hr : resp k = some r)
    (hq : pyLower (pyStrip line) ≠ "quit") :
    interactive_mode resp (line :: rest) k =
      ⟨pyStrip line :: (interactive_mode resp rest (k + 1)).sent,
       r :: (interactive_mode resp rest (k + 1)).printed,
       (interactive_mode resp rest (k + 1)).ends⟩ := by
  rw [interactive_mode_cons, if_neg hb, hr]
  show (if pyLower (pyStrip line) = "quit"
        then (⟨[pyStrip line], [r], LoopEnd.userQuit⟩ : InteractiveResult)
        else ⟨pyStrip line :: (interactive_mode resp rest (k + 1)).sent,
              r :: (interactive_mode resp rest (k + 1)).printed,
              (interactive_mode resp rest (k + 1)).ends⟩) =
      ⟨pyStrip line :: (interactive_mode resp rest (k + 1)).sent,
       r :: (interactive_mode resp rest (k + 1)).printed,
       (interactive_mode resp rest (k + 1)).ends⟩
  rw [if_neg hq]

/-- Every message the interactive loop sends is non-empty: blank lines
are skipped before transmission. -/
theorem interactive_sent_nonblank (resp : Nat → Option String) :
    ∀ (inputs : List String) (k : Nat) (m : String),
      m ∈ (interactive_mode resp inputs k).sent → m ≠ "" := by
  intro inputs
  induction inputs with
  | nil =>
    intro k m hm
    rw [interactive_mode_nil] at hm
    exact absurd hm (List.not_mem_nil m)
  | cons line rest ih =>
    intro k m hm
    by_cases hb : pyStrip line = ""
    · rw [im_step_blank resp line rest k hb] at hm
      exact ih k m hm
    · cases hr : resp k with
      | none =>
        rw [im_step_closed resp line rest k hb hr] at hm
        rw [List.mem_singleton.mp hm]
        exact hb
      | some r =>
        by_cases hq : pyLower (pyStrip line) = "quit"
        · rw [im_step_quit resp line rest k r hb hr hq] at hm
          rw [List.mem_singleton.mp hm]
          exact hb
        · rw [im_step_cont resp line rest k r hb hr hq] at hm
          rcases List.mem_cons.mp hm with hm1 | hm1
          · rw [hm1]; exact hb
          · exact ih (k + 1) m hm1

/-- When the interactive loop ends because the operator typed quit, a
message lower-casing to quit was among the messages sent. -/
theorem interactive_quit_in_sent (resp : Nat → Option String) :
    ∀ (inputs : List String) (k : Nat),
      (interactive_mode resp inputs k).ends = LoopEnd.userQuit →
      ∃ m ∈ (interactive_mode resp inputs k).sent, pyLower m = "quit" := by
  intro inputs
  induction inputs with
  | nil =>
    intro k h
    rw [interactive_mode_nil] at h
    exact absurd h (by decide)
  | cons line rest ih =>
    intro k h
    by_cases hb : pyStrip line = ""
    · rw [im_step_blank resp line rest k hb] at h ⊢
      exact ih k h
    · cases hr : resp k with
      | none =>
        rw [im_step_closed resp line rest k hb hr] at h
        exact absurd h (show ¬(LoopEnd.serverClosed = LoopEnd.userQuit) by decide)
      | some r =>
        by_cases hq : pyLower (pyStrip line) = "quit"
        · rw [im_step_quit resp line rest k r hb hr hq]
          exact ⟨pyStrip line, List.mem_singleton.mpr rfl, hq⟩
        · rw [im_step_cont resp line rest k r hb hr hq] at h ⊢
          obtain ⟨m, hm, hlm⟩ := ih (k + 1) h
          exact ⟨m, List.mem_cons.mpr (Or.inr hm), hlm⟩

/-- When the interactive loop ends because the server closed the
connection, the reply to the last sent message was an empty read. -/
theorem interactive_closed_resp (resp : Nat → Option String) :
    ∀ (inputs : List String) (k : Nat),
      (interactive_mode resp inputs k).ends = LoopEnd.serverClosed →
      resp (k + (interactive_mode resp inputs k).sent.length - 1) = none := by
  intro inputs
  induction inputs with
  | nil =>
    intro k h
    rw [interactive_mode_nil] at h
    exact absurd h (by decide)
  | cons line rest ih =>
    intro k h
    by_cases hb : pyStrip line = ""
    · rw [im_step_blank resp line rest k hb] at h ⊢
      exact ih k h
    · cases hr : resp k with
      | none =>
        rw [im_step_closed resp line rest k hb hr]
        show resp (k + 1 - 1) = none
        rw [Nat.add_sub_cancel]
        exact hr
      | some r =>
        by_cases hq : pyLower (pyStrip line) = "quit"
        · rw [im_step_quit resp line rest k r hb hr hq] at h
          exact absurd h (show ¬(LoopEnd.userQuit = LoopEnd.serverClosed) by decide)
        · rw [im_step_cont resp line rest k r hb hr hq] at h ⊢
          have hrec := ih (k + 1) h
          show resp (k + ((interactive_mode resp rest (k + 1)).sent.length + 1) - 1) = none
          have harith : k + ((interactive_mode resp rest (k + 1)).sent.length + 1) - 1 =
              k + 1 + (interactive_mode resp rest (k + 1)).sent.length - 1 := by omega
          rw [harith]
          exact hrec

/-- C7: Client interactive loop — a line that is blank after stripping
is never transmitted (no sent message is empty, and a blank line is
skipped without consuming a reply), and the loop terminates exactly on
the two advertised conditions: if it ended with userQuit some sent
message lower-cases to quit, and if it ended with serverClosed the reply
to the last sent message was an empty read. -/
theorem interactive_loop_spec (resp : Nat → Option String) (inputs : List String) (k : Nat) :
    (∀ m ∈ (interactive_mode resp inputs k).sent, m ≠ "") ∧
      ((interactive_mode resp inputs k).ends = LoopEnd.userQuit →
        ∃ m ∈ (interactive_mode resp inputs k).sent, pyLower m = "quit") ∧
      ((interactive_mode resp inputs k).ends = LoopEnd.serverClosed →
        resp (k + (interactive_mode resp inputs k).sent.length - 1) = none) ∧
      (∀ line, pyStrip line = "" →
        interactive_mode resp (line :: inputs) k = interactive_mode resp inputs k) :=
  ⟨fun m hm => interactive_sent_nonblank resp inputs k m hm,
   interactive_quit_in_sent resp inputs k,
   interactive_closed_resp resp inputs k,
   fun line hline => by rw [interactive_mode_cons, if_pos hline]⟩

/-- Concrete instance of interactive_loop_spec: a blank line is skipped,
and an ending on the operator's quit has quit among the sent messages. -/
theorem interactive_loop_spec_witness :
    (pyStrip "  " = "" ∧ (interactive_mode demoResp ["quit"] 0).ends = LoopEnd.userQuit) ∧
      interactive_mode demoResp ["  ", "quit"] 0 = interactive_mode demoResp ["quit"] 0 ∧
      (∃ m ∈ (interactive_mode demoResp ["quit"] 0).sent, pyLower m = "quit") :=
  ⟨⟨by decide, by decide⟩,
    (interactive_loop_spec demoResp ["quit"] 0).2.2.2 "  " (by decide),
    (interactive_loop_spec demoResp ["quit"] 0).2.1 (by decide)⟩

/-- Lock depth distributes over concatenated operation lists. -/
theorem lockDepth_append (a b : List CtrOp) (d : Nat) :
    lockDepth (a ++ b) d = lockDepth b (lockDepth a d) := by
  induction a generalizing d with
  | nil => rfl
  | cons op rest ih => cases op <;> simp [lockDepth, ih]

/-- Unlocked counter writes split over concatenated operation lists. -/
theorem unlockedWrites_append (a b : List CtrOp) (d : Nat) :
    unlockedWrites (a ++ b) d = unlockedWrites a d + unlockedWrites b (lockDepth a d) := by
  induction a generalizing d with
  | nil => simp [unlockedWrites, lockDepth]
  | cons op rest ih =>
    cases op
    all_goals simp [unlockedWrites, lockDepth, ih]
    all_goals omega

/-- The dispatcher never writes the counter and never touches the lock:
its operation list is empty or a single unlocked read. -/
theorem processMessageOps_writes (message : String) (d : Nat) :
    unlockedWrites (processMessageOps message) d = 0 ∧
      lockDepth (processMessageOps message) d = d := by
  by_cases h : pyLower message = "status"
  all_goals simp [processMessageOps, h, unlockedWrites, lockDepth]

/-- The handle_client read loop never writes the counter and never
touches the lock. -/
theorem loopOps_writes (events : List RecvEvent) (d : Nat) :
    unlockedWrites (loopOps events) d = 0 ∧ lockDepth (loopOps events) d = d := by
  induction events generalizing d with
  | nil => exact ⟨rfl, rfl⟩
  | cons e rest ih =>
    cases e with
    | data msg =>
      constructor
      · show unlockedWrites (processMessageOps (pyStrip msg) ++ loopOps rest) d = 0
        rw [unlockedWrites_append, (processMessageOps_writes (pyStrip msg) d).1,
          (processMessageOps_writes (pyStrip msg) d).2, (ih d).1]
      · show lockDepth (processMessageOps (pyStrip msg) ++ loopOps rest) d = d
        rw [lockDepth_append, (processMessageOps_writes (pyStrip msg) d).2, (ih d).2]
    | closed => exact ⟨rfl, rfl⟩
    | reset => exact ⟨rfl, rfl⟩
    | err => exact ⟨rfl, rfl⟩

/-- C9 counterexample: on the trace of one status command followed by a
graceful close, the handler's counter/lock operation trace contains
counter accesses performed without holding the lock — the status
branch's read of the counter (server line 121) and the read in the
closing log line (server line 87) are both outside any with-lock block. -/
theorem status_read_unlocked_cex :
    unlockedAccesses (handlerOps [RecvEvent.data "status", RecvEvent.closed]) 0 = 2 ∧
      (2 : Nat) ≠ 0 := by decide

/-- C9 amended: every write (increment and decrement) of the shared
counter happens while holding the connection lock, on every handler
trace; but the counter is also read without the lock — the dispatcher's
status branch performs exactly one unlocked read. -/
theorem counter_write_lock_discipline (events : List RecvEvent) (message : String) :
    unlockedWrites (handlerOps events) 0 = 0 ∧
      unlockedWrites (processMessageOps message) 0 = 0 ∧
      unlockedAccesses (processMessageOps "status") 0 = 1 := by
  refine ⟨?_, (processMessageOps_writes message 0).1, by decide⟩
  show unlockedWrites
      (handleClientEntryOps ++ loopOps events ++
        (if loopExit events = LoopExit.blocked then [] else handleClientExitOps)) 0 = 0
  rw [unlockedWrites_append, unlockedWrites_append, lockDepth_append]
  have h1 : unlockedWrites handleClientEntryOps 0 = 0 := by decide
  have h2 : lockDepth handleClientEntryOps 0 = 0 := by decide
  rw [h1, h2, (loopOps_writes events 0).1, (loopOps_writes events 0).2]
  by_cases hL : loopExit events = LoopExit.blocked
  · rw [if_pos hL]
    decide
  · rw [if_neg hL]
    decide

end MageTower
